import Mathlib

/-!
Shallow embedding of the envelope-budgeting ledger from
`src/backend/src/domain/mod.rs` and the append handlers of
`src/backend/src/main.rs`, together with theorems settling the spec's
claims about the balance engine.

Monetary amounts (`f64` in the source) are modelled as exact rationals
`ℚ`; 128-bit `Uuid` identifiers are modelled as `Nat`.
-/

namespace Dojo

/-- Model of `Account` from `domain/mod.rs`. -/
structure Account where
  id : Nat
  name : String
  starting_balance : ℚ
  deriving Repr, DecidableEq

/-- Model of `Category` from `domain/mod.rs`. -/
structure Category where
  id : Nat
  name : String
  deriving Repr, DecidableEq

/-- Model of `Transaction` from `domain/mod.rs`. -/
structure Transaction where
  id : Nat
  date : String
  payee : Option String
  memo : Option String
  account_id : Nat
  category_id : Option Nat
  inflow : ℚ
  outflow : ℚ
  status : String
  deriving Repr, DecidableEq

/-- Model of `CategoryTransfer` from `domain/mod.rs`. -/
structure CategoryTransfer where
  id : Nat
  date : String
  from_category_id : Nat
  to_category_id : Nat
  amount : ℚ
  memo : Option String
  deriving Repr, DecidableEq

/-- Model of `AccountTransfer` from `domain/mod.rs`. -/
structure AccountTransfer where
  id : Nat
  date : String
  from_account_id : Nat
  to_account_id : Nat
  amount : ℚ
  memo : Option String
  deriving Repr, DecidableEq

/-- Model of `Budget` from `domain/mod.rs`: the aggregate root holding every
collection plus the id of the system available category. -/
structure Budget where
  system_available_category_id : Nat
  accounts : List Account
  categories : List Category
  transactions : List Transaction
  category_transfers : List CategoryTransfer
  account_transfers : List AccountTransfer
  deriving Repr, DecidableEq

/-- Model of `impl Default for Budget`: nil uuid (modelled as 0), all collections
empty.  In particular no `Category` is pushed at construction. -/
def Budget.defaultBudget : Budget where
  system_available_category_id := 0
  accounts := []
  categories := []
  transactions := []
  category_transfers := []
  account_transfers := []

/-- The construction in `main.rs`: a fresh uuid for
`system_available_category_id`, everything else from `Default`. -/
def mkBudget (freshId : Nat) : Budget :=
  { Budget.defaultBudget with system_available_category_id := freshId }

/-- Model of `Budget::category_balance`: fold `inflow - outflow` over the
transactions whose `category_id` is `Some cat`, then fold the category
transfers, adding `amount` when `to_category_id == cat` and subtracting
it when `from_category_id == cat`. -/
def Budget.category_balance (b : Budget) (cat : Nat) : ℚ :=
  let base : ℚ :=
    (b.transactions.filter (fun t => t.category_id == some cat)).foldl
      (fun s t => s + (t.inflow - t.outflow)) 0
  b.category_transfers.foldl
    (fun s tr =>
      let s1 := if tr.to_category_id == cat then s + tr.amount else s
      if tr.from_category_id == cat then s1 - tr.amount else s1)
    base

/-- Model of `Budget::available_to_budget`: the category balance of the system
available category. -/
def Budget.available_to_budget (b : Budget) : ℚ :=
  b.category_balance b.system_available_category_id

/-- Model of `Budget::account_balance`: `starting_balance` of the first account
whose id matches (`iter().find`), defaulting to 0, plus the fold of
`inflow - outflow` over the transactions on that account. -/
def Budget.account_balance (b : Budget) (acc : Nat) : ℚ :=
  let starting : ℚ :=
    (((b.accounts.find? (fun a => a.id == acc)).map
        (fun a => a.starting_balance)).getD 0)
  (b.transactions.filter (fun t => t.account_id == acc)).foldl
    (fun s t => s + (t.inflow - t.outflow)) starting

/-- The five append operations exposed by the HTTP handlers in
`main.rs`; each pushes its payload onto the corresponding `Vec`. -/
inductive Op where
  | addAccount (a : Account)
  | addCategory (c : Category)
  | addTransaction (t : Transaction)
  | addCategoryTransfer (tr : CategoryTransfer)
  | addAccountTransfer (tr : AccountTransfer)
  deriving Repr

/-- One handler call: push the payload at the end of its collection. -/
def applyOp (b : Budget) : Op → Budget
  | .addAccount a => { b with accounts := b.accounts ++ [a] }
  | .addCategory c => { b with categories := b.categories ++ [c] }
  | .addTransaction t => { b with transactions := b.transactions ++ [t] }
  | .addCategoryTransfer tr =>
      { b with category_transfers := b.category_transfers ++ [tr] }
  | .addAccountTransfer tr =>
      { b with account_transfers := b.account_transfers ++ [tr] }

/-- A sequence of handler calls applied in order. -/
def applyOps (b : Budget) (ops : List Op) : Budget :=
  ops.foldl applyOp b

/-! Spec-side sums, written as the spec phrases them: sums over filtered
collections rather than the source's imperative folds. -/

/-- Sum of `inflow - outflow` over the transactions categorized to `c`. -/
def txCategorySum (l : List Transaction) (c : Nat) : ℚ :=
  ((l.filter (fun t => t.category_id == some c)).map
    (fun t => t.inflow - t.outflow)).sum

/-- Sum of `inflow - outflow` over the transactions on account `a`. -/
def txAccountSum (l : List Transaction) (a : Nat) : ℚ :=
  ((l.filter (fun t => t.account_id == a)).map
    (fun t => t.inflow - t.outflow)).sum

/-- Sum of `amount` over the category transfers into `c`. -/
def transferIn (l : List CategoryTransfer) (c : Nat) : ℚ :=
  ((l.filter (fun tr => tr.to_category_id == c)).map (fun tr => tr.amount)).sum

/-- Sum of `amount` over the category transfers out of `c`. -/
def transferOut (l : List CategoryTransfer) (c : Nat) : ℚ :=
  ((l.filter (fun tr => tr.from_category_id == c)).map
    (fun tr => tr.amount)).sum

/-- Starting balance of the first account with id `a`, defaulting to 0. -/
def startingOf (l : List Account) (a : Nat) : ℚ :=
  ((l.find? (fun x => x.id == a)).map (fun x => x.starting_balance)).getD 0

/-! Bridge lemmas from the source's folds to the spec-side sums. -/

theorem foldl_tx_eq : ∀ (l : List Transaction) (init : ℚ),
    l.foldl (fun s t => s + (t.inflow - t.outflow)) init
      = init + (l.map (fun t => t.inflow - t.outflow)).sum := by
  intro l
  induction l with
  | nil => intro init; simp
  | cons t ts ih =>
      intro init
      simp only [List.foldl_cons, List.map_cons, List.sum_cons, ih]
      ring

theorem foldl_transfer_eq (c : Nat) : ∀ (l : List CategoryTransfer) (init : ℚ),
    l.foldl
      (fun s tr =>
        let s1 := if tr.to_category_id == c then s + tr.amount else s
        if tr.from_category_id == c then s1 - tr.amount else s1)
      init
      = init + transferIn l c - transferOut l c := by
  intro l
  induction l with
  | nil => intro init; simp [transferIn, transferOut]
  | cons tr trs ih =>
      intro init
      simp only [List.foldl_cons, ih, transferIn, transferOut, List.filter_cons]
      by_cases h1 : tr.to_category_id = c <;>
        by_cases h2 : tr.from_category_id = c <;>
          simp [h1, h2] <;> ring

/-- The source's `category_balance` computes exactly the spec's sum. -/
theorem category_balance_eq (b : Budget) (c : Nat) :
    b.category_balance c
      = txCategorySum b.transactions c + transferIn b.category_transfers c
        - transferOut b.category_transfers c := by
  simp only [Budget.category_balance, foldl_transfer_eq, foldl_tx_eq,
    txCategorySum, zero_add]

/-- The source's `account_balance` computes exactly the spec's sum. -/
theorem account_balance_eq (b : Budget) (a : Nat) :
    b.account_balance a = startingOf b.accounts a + txAccountSum b.transactions a := by
  simp only [Budget.account_balance, foldl_tx_eq, txAccountSum, startingOf]

/-! How each spec-side sum reacts to appending one record. -/

theorem txCategorySum_append (l : List Transaction) (t : Transaction) (c : Nat) :
    txCategorySum (l ++ [t]) c
      = txCategorySum l c
        + (if t.category_id = some c then t.inflow - t.outflow else 0) := by
  by_cases h : t.category_id = some c <;>
    simp [txCategorySum, List.filter_append, h]

theorem txAccountSum_append (l : List Transaction) (t : Transaction) (a : Nat) :
    txAccountSum (l ++ [t]) a
      = txAccountSum l a + (if t.account_id = a then t.inflow - t.outflow else 0) := by
  by_cases h : t.account_id = a <;>
    simp [txAccountSum, List.filter_append, h]

theorem transferIn_append (l : List CategoryTransfer) (tr : CategoryTransfer)
    (c : Nat) :
    transferIn (l ++ [tr]) c
      = transferIn l c + (if tr.to_category_id = c then tr.amount else 0) := by
  by_cases h : tr.to_category_id = c <;>
    simp [transferIn, List.filter_append, h]

theorem transferOut_append (l : List CategoryTransfer) (tr : CategoryTransfer)
    (c : Nat) :
    transferOut (l ++ [tr]) c
      = transferOut l c + (if tr.from_category_id = c then tr.amount else 0) := by
  by_cases h : tr.from_category_id = c <;>
    simp [transferOut, List.filter_append, h]

/-! Effect of each append operation on the two balance functions. -/

/-- Appending a category transfer shifts `category_balance c` by the
transfer's net contribution to `c`. -/
theorem category_balance_append_transfer (b : Budget) (tr : CategoryTransfer)
    (c : Nat) :
    (applyOp b (Op.addCategoryTransfer tr)).category_balance c
      = b.category_balance c + (if tr.to_category_id = c then tr.amount else 0)
        - (if tr.from_category_id = c then tr.amount else 0) := by
  have h1 : (applyOp b (Op.addCategoryTransfer tr)).transactions
      = b.transactions := rfl
  have h2 : (applyOp b (Op.addCategoryTransfer tr)).category_transfers
      = b.category_transfers ++ [tr] := rfl
  rw [category_balance_eq, category_balance_eq, h1, h2, transferIn_append,
    transferOut_append]
  ring

/-- Appending a transaction shifts `category_balance c` by its net amount
when it is categorized to `c`, and not at all otherwise. -/
theorem category_balance_append_transaction (b : Budget) (t : Transaction)
    (c : Nat) :
    (applyOp b (Op.addTransaction t)).category_balance c
      = b.category_balance c
        + (if t.category_id = some c then t.inflow - t.outflow else 0) := by
  have h1 : (applyOp b (Op.addTransaction t)).transactions
      = b.transactions ++ [t] := rfl
  have h2 : (applyOp b (Op.addTransaction t)).category_transfers
      = b.category_transfers := rfl
  rw [category_balance_eq, category_balance_eq, h1, h2, txCategorySum_append]
  ring

/-- Appending a transaction shifts `account_balance a` by its net amount
when it is on account `a`, and not at all otherwise. -/
theorem account_balance_append_transaction (b : Budget) (t : Transaction)
    (a : Nat) :
    (applyOp b (Op.addTransaction t)).account_balance a
      = b.account_balance a
        + (if t.account_id = a then t.inflow - t.outflow else 0) := by
  have h1 : (applyOp b (Op.addTransaction t)).transactions
      = b.transactions ++ [t] := rfl
  have h2 : (applyOp b (Op.addTransaction t)).accounts = b.accounts := rfl
  rw [account_balance_eq, account_balance_eq, h1, h2, txAccountSum_append]
  ring

/-- No append operation ever changes `system_available_category_id`. -/
theorem applyOp_sys_id (b : Budget) (op : Op) :
    (applyOp b op).system_available_category_id
      = b.system_available_category_id := by
  cases op <;> rfl

theorem applyOps_sys_id : ∀ (ops : List Op) (b : Budget),
    (applyOps b ops).system_available_category_id
      = b.system_available_category_id := by
  intro ops
  induction ops with
  | nil => intro b; rfl
  | cons op rest ih =>
      intro b
      have : applyOps b (op :: rest) = applyOps (applyOp b op) rest := rfl
      rw [this, ih, applyOp_sys_id]

/-! Concrete data mirroring the scenario of `tests/formulas.rs`, used by
the witness theorems below. -/

/-- Checking account of the reference test (starting balance 100). -/
def checkingAccount : Account where
  id := 10
  name := "Checking"
  starting_balance := 100

/-- The reference test's transaction: outflow 20 on Checking/Groceries. -/
def groceriesTx : Transaction where
  id := 20
  date := "2025-06-20"
  payee := none
  memo := none
  account_id := 10
  category_id := some 2
  inflow := 0
  outflow := 20
  status := "settled"

/-- The reference test's transfer: 50 from Available (1) to Groceries (2). -/
def availableToGroceries : CategoryTransfer where
  id := 30
  date := "2025-06-20"
  from_category_id := 1
  to_category_id := 2
  amount := 50
  memo := none

/-- Budget of the reference test: Available is category 1, Groceries
category 2, Checking account 10. -/
def testBudget : Budget where
  system_available_category_id := 1
  accounts := [checkingAccount]
  categories := [{ id := 1, name := "Available" }, { id := 2, name := "Groceries" }]
  transactions := [groceriesTx]
  category_transfers := [availableToGroceries]
  account_transfers := []

/-- A category id referenced by no transaction and no transfer has
balance 0. -/
theorem category_balance_zero_of_unreferenced (b : Budget) (c : Nat)
    (h1 : ∀ t ∈ b.transactions, t.category_id ≠ some c)
    (h2 : ∀ tr ∈ b.category_transfers,
      tr.to_category_id ≠ c ∧ tr.from_category_id ≠ c) :
    b.category_balance c = 0 := by
  rw [category_balance_eq]
  have e1 : txCategorySum b.transactions c = 0 := by
    have : b.transactions.filter (fun t => t.category_id == some c) = [] := by
      rw [List.filter_eq_nil_iff]
      intro t ht
      simpa using h1 t ht
    simp [txCategorySum, this]
  have e2 : transferIn b.category_transfers c = 0 := by
    have : b.category_transfers.filter (fun tr => tr.to_category_id == c) = [] := by
      rw [List.filter_eq_nil_iff]
      intro tr htr
      simpa using (h2 tr htr).1
    simp [transferIn, this]
  have e3 : transferOut b.category_transfers c = 0 := by
    have : b.category_transfers.filter (fun tr => tr.from_category_id == c) = [] := by
      rw [List.filter_eq_nil_iff]
      intro tr htr
      simpa using (h2 tr htr).2
    simp [transferOut, this]
  rw [e1, e2, e3]
  ring

/-- An account id matching no account and no transaction has balance 0. -/
theorem account_balance_zero_of_unreferenced (b : Budget) (a : Nat)
    (h1 : ∀ x ∈ b.accounts, x.id ≠ a)
    (h2 : ∀ t ∈ b.transactions, t.account_id ≠ a) :
    b.account_balance a = 0 := by
  rw [account_balance_eq]
  have e1 : startingOf b.accounts a = 0 := by
    have : b.accounts.find? (fun x => x.id == a) = none := by
      rw [List.find?_eq_none]
      intro x hx
      simpa using h1 x hx
    simp [startingOf, this]
  have e2 : txAccountSum b.transactions a = 0 := by
    have : b.transactions.filter (fun t => t.account_id == a) = [] := by
      rw [List.filter_eq_nil_iff]
      intro t ht
      simpa using h2 t ht
    simp [txAccountSum, this]
  rw [e1, e2]
  ring

/-- C1: for every budget and category id `c`, `category_balance` equals
the sum of `inflow - outflow` over transactions categorized to `c`, plus
the transfers into `c`, minus the transfers out of `c`; in particular it
is 0 when nothing references `c`. -/
theorem claim_C1_category_balance_formula (b : Budget) (c : Nat) :
    (b.category_balance c
      = txCategorySum b.transactions c + transferIn b.category_transfers c
        - transferOut b.category_transfers c) ∧
    ((∀ t ∈ b.transactions, t.category_id ≠ some c) →
      (∀ tr ∈ b.category_transfers,
        tr.to_category_id ≠ c ∧ tr.from_category_id ≠ c) →
      b.category_balance c = 0) :=
  ⟨category_balance_eq b c, category_balance_zero_of_unreferenced b c⟩

/-- Witness for C1 at the reference-test budget and the untouched
category id 9: the zero clause applies and the balance is 0. -/
theorem claim_C1_witness : testBudget.category_balance 9 = 0 :=
  (claim_C1_category_balance_formula testBudget 9).2
    (by decide) (by decide)

/-- C2: `account_balance` is the starting balance of the first matching
account (0 when none matches) plus the net of the account's transactions,
and the `account_transfers` collection never affects the result. -/
theorem claim_C2_account_balance_formula (b : Budget) (a : Nat) :
    (b.account_balance a
      = startingOf b.accounts a + txAccountSum b.transactions a) ∧
    ∀ ts : List AccountTransfer,
      ({ b with account_transfers := ts } : Budget).account_balance a
        = b.account_balance a :=
  ⟨account_balance_eq b a, fun _ => rfl⟩

/-- C3: `available_to_budget` is `category_balance` at the system
available category id. -/
theorem claim_C3_available_to_budget (b : Budget) :
    b.available_to_budget
      = b.category_balance b.system_available_category_id := rfl

/-- C4 counterexample: right after Budget construction (as `main.rs`
performs it, here with fresh id 1) no `Category` with the system
available id exists — the categories collection is empty. -/
theorem claim_C4_counterexample :
    ¬ ∃ cat ∈ (mkBudget 1).categories,
        cat.id = (mkBudget 1).system_available_category_id := by
  simp [mkBudget, Budget.defaultBudget]

/-- C4 amended: Budget construction creates no `Category` at all — the
categories collection starts empty, so no category with the system
available id exists at creation — while the system available category id
itself is fixed at creation and preserved by every sequence of append
operations. -/
theorem claim_C4_sys_id_fixed_no_initial_category (freshId : Nat)
    (ops : List Op) :
    (applyOps (mkBudget freshId) ops).system_available_category_id = freshId ∧
    (mkBudget freshId).categories = [] := by
  rw [applyOps_sys_id]
  exact ⟨rfl, rfl⟩

/-- A degenerate category transfer whose endpoints coincide. -/
def degenerateTransfer : CategoryTransfer where
  id := 31
  date := "2025-06-21"
  from_category_id := 7
  to_category_id := 7
  amount := 1
  memo := none

/-- C5 counterexample: appending a transfer of amount 1 from category 7
to category 7 itself leaves `category_balance 7` at 0, so the balance of
the source category does not decrease by the amount. -/
theorem claim_C5_counterexample :
    ¬ ((applyOp Budget.defaultBudget
          (Op.addCategoryTransfer degenerateTransfer)).category_balance 7
        = Budget.defaultBudget.category_balance 7
          - degenerateTransfer.amount) := by
  norm_num [applyOp, Budget.defaultBudget, degenerateTransfer,
    Budget.category_balance]

/-- C5 amended: provided the two endpoint categories are distinct,
appending a category transfer of amount `m` decreases the source
category's balance by `m`, increases the destination's by `m`, and
leaves the sum of the two balances unchanged. -/
theorem claim_C5_transfer_moves_amount (b : Budget) (tr : CategoryTransfer)
    (hne : tr.from_category_id ≠ tr.to_category_id) :
    ((applyOp b (Op.addCategoryTransfer tr)).category_balance
        tr.from_category_id
      = b.category_balance tr.from_category_id - tr.amount) ∧
    ((applyOp b (Op.addCategoryTransfer tr)).category_balance
        tr.to_category_id
      = b.category_balance tr.to_category_id + tr.amount) ∧
    ((applyOp b (Op.addCategoryTransfer tr)).category_balance
        tr.from_category_id
      + (applyOp b (Op.addCategoryTransfer tr)).category_balance
        tr.to_category_id
      = b.category_balance tr.from_category_id
        + b.category_balance tr.to_category_id) := by
  have hfrom := category_balance_append_transfer b tr tr.from_category_id
  have hto := category_balance_append_transfer b tr tr.to_category_id
  rw [if_neg (fun h => hne h.symm), if_pos rfl] at hfrom
  rw [if_pos rfl, if_neg hne] at hto
  exact ⟨by rw [hfrom]; ring, by rw [hto]; ring, by rw [hfrom, hto]; ring⟩

/-- A well-formed transfer of 5 from Available (1) to Groceries (2). -/
def witnessTransfer : CategoryTransfer where
  id := 32
  date := "2025-06-22"
  from_category_id := 1
  to_category_id := 2
  amount := 5
  memo := none

/-- Witness for C5 on the reference-test budget. -/
theorem claim_C5_witness :
    witnessTransfer.from_category_id ≠ witnessTransfer.to_category_id ∧
    (applyOp testBudget (Op.addCategoryTransfer witnessTransfer)).category_balance
        witnessTransfer.from_category_id
      = testBudget.category_balance witnessTransfer.from_category_id
        - witnessTransfer.amount :=
  ⟨by decide,
    (claim_C5_transfer_moves_amount testBudget witnessTransfer (by decide)).1⟩

/-- C6: appending a transaction categorized to `c` increases
`category_balance c` by exactly its `inflow - outflow`. -/
theorem claim_C6_categorized_transaction_adds_net (b : Budget)
    (t : Transaction) (c : Nat) (h : t.category_id = some c) :
    (applyOp b (Op.addTransaction t)).category_balance c
      = b.category_balance c + (t.inflow - t.outflow) := by
  rw [category_balance_append_transaction, if_pos h]

/-- Witness for C6: re-appending the reference transaction to the
reference budget. -/
theorem claim_C6_witness :
    groceriesTx.category_id = some 2 ∧
    (applyOp testBudget (Op.addTransaction groceriesTx)).category_balance 2
      = testBudget.category_balance 2
        + (groceriesTx.inflow - groceriesTx.outflow) :=
  ⟨rfl,
    claim_C6_categorized_transaction_adds_net testBudget groceriesTx 2 rfl⟩

/-- C7: appending an account transfer leaves the sum of
`account_balance` over all accounts of the budget unchanged: the balance
engine never reads `account_transfers`. -/
theorem claim_C7_account_transfer_conserves_total (b : Budget)
    (tr : AccountTransfer) :
    ((applyOp b (Op.addAccountTransfer tr)).accounts.map
        (fun a => (applyOp b (Op.addAccountTransfer tr)).account_balance a.id)).sum
      = (b.accounts.map (fun a => b.account_balance a.id)).sum := rfl

/-- C8: the balance queries are total functions of the budget and id;
an id with no associated records degrades to the zero contribution:
an unreferenced category id has balance 0, and an unknown account id
with no transactions has balance exactly 0. -/
theorem claim_C8_missing_ids_degrade_to_zero (b : Budget) (c a : Nat)
    (hc1 : ∀ t ∈ b.transactions, t.category_id ≠ some c)
    (hc2 : ∀ tr ∈ b.category_transfers,
      tr.to_category_id ≠ c ∧ tr.from_category_id ≠ c)
    (ha1 : ∀ x ∈ b.accounts, x.id ≠ a)
    (ha2 : ∀ t ∈ b.transactions, t.account_id ≠ a) :
    b.category_balance c = 0 ∧ b.account_balance a = 0 :=
  ⟨category_balance_zero_of_unreferenced b c hc1 hc2,
    account_balance_zero_of_unreferenced b a ha1 ha2⟩

/-- Witness for C8 on the reference-test budget, with the untouched
category id 8 and account id 99. -/
theorem claim_C8_witness :
    testBudget.category_balance 8 = 0 ∧ testBudget.account_balance 99 = 0 :=
  claim_C8_missing_ids_degrade_to_zero testBudget 8 99
    (by decide) (by decide) (by decide) (by decide)

/-- An uncategorized transaction on the Checking account. -/
def uncategorizedTx : Transaction where
  id := 22
  date := "2025-06-24"
  payee := none
  memo := none
  account_id := 10
  category_id := none
  inflow := 4
  outflow := 1
  status := "settled"

/-- C9: appending an uncategorized transaction changes no category
balance whatsoever, while still adding its net amount to the balance of
its account. -/
theorem claim_C9_uncategorized_transaction (b : Budget) (t : Transaction)
    (h : t.category_id = none) :
    (∀ c : Nat, (applyOp b (Op.addTransaction t)).category_balance c
        = b.category_balance c) ∧
    (applyOp b (Op.addTransaction t)).account_balance t.account_id
      = b.account_balance t.account_id + (t.inflow - t.outflow) := by
  constructor
  · intro c
    rw [category_balance_append_transaction, if_neg (by simp [h])]
    ring
  · rw [account_balance_append_transaction, if_pos rfl]

/-- Witness for C9: the uncategorized transaction leaves the Groceries
balance of the reference budget untouched. -/
theorem claim_C9_witness :
    uncategorizedTx.category_id = none ∧
    (applyOp testBudget (Op.addTransaction uncategorizedTx)).category_balance 2
      = testBudget.category_balance 2 :=
  ⟨rfl, (claim_C9_uncategorized_transaction testBudget uncategorizedTx rfl).1 2⟩

/-- Lookup of the starting balance lands on the first account whose id
matches, ignoring any later duplicate. -/
theorem startingOf_first_match (post : List Account) (x : Account) :
    ∀ pre : List Account, (∀ y ∈ pre, y.id ≠ x.id) →
      startingOf (pre ++ x :: post) x.id = x.starting_balance := by
  intro pre
  induction pre with
  | nil => intro _; simp [startingOf]
  | cons y ys ih =>
      intro hpre
      have hy : ¬ ((y.id == x.id) = true) := by
        simpa using hpre y (List.mem_cons_self y ys)
      have step : List.find? (fun z => z.id == x.id) (y :: (ys ++ x :: post))
          = List.find? (fun z => z.id == x.id) (ys ++ x :: post) :=
        List.find?_cons_of_neg _ hy
      have ih2 := ih fun z hz => hpre z (List.mem_cons_of_mem y hz)
      simp only [startingOf, List.cons_append] at ih2 ⊢
      rw [step]
      exact ih2

/-- C10: when the accounts collection holds several accounts with the
same id, `account_balance` uses the starting balance of the earliest
inserted one; later duplicates are ignored while the transactions on the
id are still all summed. -/
theorem claim_C10_duplicate_account_first_match (b : Budget)
    (pre post : List Account) (x : Account)
    (hacc : b.accounts = pre ++ x :: post)
    (hpre : ∀ y ∈ pre, y.id ≠ x.id) :
    b.account_balance x.id
      = x.starting_balance + txAccountSum b.transactions x.id := by
  rw [account_balance_eq, hacc, startingOf_first_match post x pre hpre]

/-- A later duplicate of the Checking account with a different starting
balance. -/
def checkingDuplicate : Account where
  id := 10
  name := "Checking copy"
  starting_balance := 999

/-- Reference budget with a duplicate-id account appended. -/
def dupBudget : Budget :=
  { testBudget with accounts := [checkingAccount, checkingDuplicate] }

/-- Witness for C10: with two accounts of id 10, the balance uses the
first one's starting balance (100, not 999). -/
theorem claim_C10_witness :
    dupBudget.accounts = [] ++ checkingAccount :: [checkingDuplicate] ∧
    dupBudget.account_balance checkingAccount.id
      = checkingAccount.starting_balance
        + txAccountSum dupBudget.transactions checkingAccount.id :=
  ⟨rfl,
    claim_C10_duplicate_account_first_match dupBudget [] [checkingDuplicate]
      checkingAccount rfl (by simp)⟩

end Dojo
